import Mathlib

/-!
Shallow embedding of the Shotgrid event leecher
(`services/leecher/leecher/listener.py` of the ayon-shotgrid repository).

The leecher is a poll loop: build filters over the Shotgrid event log,
resolve a cursor (last processed event id), fetch a batch of events with
id greater than the cursor, classify each event, dispatch the relevant
ones to the AYON event bus, and sleep.  The external collaborators
(Shotgrid queries, AYON event queries and dispatch) are modelled as
oracle inputs; Python exceptions raised by them are modelled with
`Except` / `Option`; Python truthiness of ints, strings and lists is
modelled explicitly.
-/

namespace Leecher

/-- Python truthiness of an optional integer (`if not last_event_id`):
`None` and `0` are falsy, every other int is truthy. -/
def truthyId : Option Int → Bool
  | none => false
  | some n => n != 0

/-- Python truthiness of an optional string: `None` and `""` are falsy. -/
def truthyStr : Option String → Bool
  | none => false
  | some s => s != ""

/-- Ordering on optional event ids, used to state that a batch is sorted
ascending by id.  Two present ids compare by `≤`; a missing id places no
constraint. -/
def optLe : Option Int → Option Int → Bool
  | some a, some b => a ≤ b
  | _, _ => true

/-- Model of the external `datetime` value at its interface boundary:
the only operation the listener uses is `isoformat`, so the model carries
the ISO string directly. -/
structure DateTime where
  iso : String
deriving DecidableEq, Repr

/-- The ISO-format text of a datetime (`created_at.isoformat()`). -/
def DateTime.isoformat (d : DateTime) : String := d.iso

/-- A `created_at` dict value: a datetime object before the listener
mutates the payload, a plain string afterwards. -/
inductive DTVal
  | dt (d : DateTime)
  | str (s : String)
deriving DecidableEq, Repr

/-- The `user` sub-dict of an event.  The outer `Option` on `name` is key
presence (`.get("name", "Undefined")` only defaults when the key is
absent); the inner `Option` is a stored Python `None`. -/
structure UserRef where
  name : Option (Option String)
deriving DecidableEq, Repr

/-- A Shotgrid `EventLogEntry` record (also the payload handed to
dispatch), restricted to the fields the listener reads.  `id` is
optional because the loop reads it with `event.get("id", None)`;
`sudo_actual_user_type` is the flattened result of
`meta.get("sudo_actual_user", {}).get("type")`;
`meta_entity_type` is `none` when `meta.get("entity_type", "Undefined")`
would fall back to its default. -/
structure SGEvent where
  id : Option Int
  event_type : String
  attribute_name : String
  sudo_actual_user_type : Option String
  user : Option UserRef
  created_at : DTVal
  meta_entity_type : Option String
  entity_name : Option String
  entity_id : Option Int
  project_name : Option String
  project_id : Option Int
deriving DecidableEq, Repr

/-- The configuration the loop consults: the values of
`self.custom_attribs_map` (Shotgrid-side attribute names) and the
derived supported event types (`self._get_supported_event_types()`). -/
structure Config where
  customAttribValues : List String
  supportedEventTypes : List String
deriving DecidableEq, Repr

/-- Python `str.replace("sg_", "")`: delete every occurrence of the
substring `sg_`, scanning left to right. -/
def strip_sg : List Char → List Char
  | [] => []
  | 's' :: 'g' :: '_' :: rest => strip_sg rest
  | c :: rest => c :: strip_sg rest

/-- `event["attribute_name"].replace("sg_", "")`. -/
def strip_sg_str (s : String) : String := String.mk (strip_sg s.data)

/-- `event["event_type"].endswith("_Change")`. -/
def ends_with_change (s : String) : Bool :=
  List.isSuffixOf "_Change".data s.data

/-- `_is_api_user_event`: the event's meta carries a sudo actual user of
type `"ApiUser"`. -/
def is_api_user_event (e : SGEvent) : Bool :=
  e.sudo_actual_user_type == some "ApiUser"

/-- First branch of the per-event dispatch decision: the event type ends
in `_Change` and its normalized attribute name is one of the tracked
custom-attribute values. -/
def isCustomAttribChange (cfg : Config) (e : SGEvent) : Bool :=
  ends_with_change e.event_type &&
    cfg.customAttribValues.contains (strip_sg_str e.attribute_name)

/-- Second branch: the event type is literally one of the derived
supported event types. -/
def isSupportedEntityEvent (cfg : Config) (e : SGEvent) : Bool :=
  cfg.supportedEventTypes.contains e.event_type

/-- Outcome of the classification branches in the loop body: the value
assigned to `last_event_id` before the dispatch gate. -/
inductive Classification
  | accept (id : Option Int)
  | selfCaused
  | irrelevant
deriving DecidableEq, Repr

/-- The classification encoded by the `if / elif` ladder of the loop
body: tracked custom-attribute changes and supported entity events are
accepted with their id unless caused by an API user (then self-caused);
everything else falls through both branches. -/
def classify (cfg : Config) (e : SGEvent) : Classification :=
  if isCustomAttribChange cfg e then
    if is_api_user_event e then Classification.selfCaused
    else Classification.accept e.id
  else if isSupportedEntityEvent cfg e then
    if is_api_user_event e then Classification.selfCaused
    else Classification.accept e.id
  else Classification.irrelevant

/-- The value `last_event_id` holds after the classification ladder ran
on `e`, given its value `cursor` before: accepted events overwrite it
with their id, self-caused events clear it to `None`, irrelevant events
leave it untouched. -/
def classifyCursor (cfg : Config) (cursor : Option Int) (e : SGEvent) :
    Option Int :=
  match classify cfg e with
  | Classification.accept i => i
  | Classification.selfCaused => none
  | Classification.irrelevant => cursor

/-- The `for event in events` body of `start_listening`, folded over the
batch.  Inputs: the dispatch function (`self.func`), the entering
`last_event_id`, and the fetched batch (a falsy record is `none` and is
skipped).  Output: the final `last_event_id` and the events on which
dispatch was invoked, in call order.  A dispatch exception aborts the
rest of the batch (it is caught by the surrounding `try`), leaving
`last_event_id` at the value the classification ladder gave it. -/
def processEvents (cfg : Config) (d : SGEvent → Except Unit Int) :
    Option Int → List (Option SGEvent) → Option Int × List SGEvent
  | c, [] => (c, [])
  | c, none :: rest => processEvents cfg d c rest
  | c, some e :: rest =>
    let c2 := classifyCursor cfg c e
    if truthyId c2 then
      match d e with
      | Except.error _ => (c2, [e])
      | Except.ok r =>
        let res := processEvents cfg d (some r) rest
        (res.1, e :: res.2)
    else processEvents cfg d c2 rest

/-- A Shotgrid query filter, as `_build_shotgrid_filters` and the loop
assemble them. -/
inductive SGFilter
  | projectIn (ids : List Int)
  | eventTypeIn (types : List String)
  | idGreaterThan (cursor : Option Int)
deriving DecidableEq, Repr

/-- `_build_shotgrid_filters`, with the result of the auto-sync project
query supplied as input: empty when no project has auto-sync enabled,
otherwise a project filter plus (when the derived event-type list is
non-empty) an event-type filter. -/
def build_shotgrid_filters (cfg : Config) (sg_projects : List Int) :
    List SGFilter :=
  if sg_projects.isEmpty then []
  else
    [SGFilter.projectIn sg_projects] ++
      (if cfg.supportedEventTypes.isEmpty then []
       else [SGFilter.eventTypeIn cfg.supportedEventTypes])

/-- A record in the AYON event history: the topic it was dispatched
under and its `hash` field, read back as an integer resume token. -/
structure SinkRecord where
  topic : String
  hash : Int
deriving DecidableEq, Repr

/-- `ayon_api.get_events(topics=[topic], fields=["hash"])`: the hashes
of the history records carrying the queried topic, in history order. -/
def get_events (history : List SinkRecord) (topic : String) : List Int :=
  (history.filter (fun r => r.topic == topic)).map SinkRecord.hash

/-- `_get_last_event_processed`: iterate the AYON events of topic
`"shotgrid.leech"` keeping the last hash; if that value is falsy
(no record, or hash 0) fall back to the newest matching Shotgrid event,
whose id is supplied as `find_one_desc` (`none` models `find_one`
returning no record, in which case the subscript raises and the whole
call fails — result `none`). -/
def get_last_event_processed (history : List SinkRecord)
    (find_one_desc : Option Int) : Option Int :=
  let last := (get_events history "shotgrid.leech").getLast?
  if truthyId last then last else find_one_desc

/-- `payload.get("user", {}).get("name", "Undefined")`: the default
applies when the `user` key or the `name` key is absent; a stored
`None` is returned as-is. -/
def get_user_name (p : SGEvent) : Option String :=
  match p.user with
  | none => some "Undefined"
  | some u =>
    match u.name with
    | none => some "Undefined"
    | some v => v

/-- The human-readable description built by
`send_shotgrid_event_to_ayon`: `"Leeched <event_type>"`, overwritten
with `"Leeched <event_type> by <user_name>"` when the retrieved user
name is truthy. -/
def event_description (p : SGEvent) : String :=
  let base := "Leeched " ++ p.event_type
  let u := get_user_name p
  if truthyStr u then base ++ " by " ++ u.getD "" else base

/-- The in-place mutation `payload["created_at"] =
payload["created_at"].isoformat()`: succeeds when the field holds a
datetime, fails (attribute error) when it already holds a string. -/
def normalize_created_at (p : SGEvent) : Option SGEvent :=
  match p.created_at with
  | DTVal.dt d => some { p with created_at := DTVal.str d.isoformat }
  | DTVal.str _ => none

/-- `send_shotgrid_event_to_ayon`, at the granularity the claims need:
mutate `created_at` in place, then dispatch an AYON event of topic
`"shotgrid.event"` whose `event_hash` is the payload id, and return
that id.  The result is the new sink history, the mutated payload and
the returned id; `none` models the call raising (string `created_at`
or missing id). -/
def send_shotgrid_event_to_ayon (history : List SinkRecord)
    (p : SGEvent) : Option (List SinkRecord × SGEvent × Int) :=
  match normalize_created_at p with
  | none => none
  | some p2 =>
    match p2.id with
    | none => none
    | some i =>
      some (history ++ [{ topic := "shotgrid.event", hash := i }], p2, i)

/-- One external interaction of a loop iteration, recorded in order:
the auto-sync project query of a filter rebuild, a cursor
re-resolution, an event-log fetch (with the id threshold of its
`["id", "greater_than", cursor]` filter), or a dispatch of one event. -/
inductive Call
  | buildFilters
  | resolveCursor
  | fetch (threshold : Option Int)
  | dispatch (e : SGEvent)
deriving DecidableEq

/-- The loop-carried state of `start_listening`: the base filters and
`last_event_id`. -/
structure LoopState where
  baseFilters : List SGFilter
  lastEventId : Option Int
deriving DecidableEq, Repr

/-- Outcome of one iteration of the `while True` body: either the loop
continues with a new state, or an exception escaped the loop body. -/
inductive StepOutcome
  | continued (s : LoopState)
  | crashed
deriving DecidableEq, Repr

/-- The external world consulted during one iteration: the auto-sync
project query backing a filter rebuild (may raise), the result of
`_get_last_event_processed` (`none` = raises), the event-log fetch
(may raise), and the dispatch function. -/
structure Env where
  sgProjects : Except Unit (List Int)
  resolve : Option Int
  fetch : Except Unit (List (Option SGEvent))
  dispatchFn : SGEvent → Except Unit Int

/-- The `try` block of an iteration: fetch the batch (with the id
threshold `cursor`); on a fetch exception or an empty batch the cursor
is unchanged; otherwise process the batch.  Total: every exception
inside this region is caught by the `except` clause. -/
def pollOnce (cfg : Config) (env : Env) (cursor : Option Int) :
    Option Int × List Call :=
  match env.fetch with
  | Except.error _ => (cursor, [Call.fetch cursor])
  | Except.ok events =>
    if events.isEmpty then (cursor, [Call.fetch cursor])
    else
      let r := processEvents cfg env.dispatchFn cursor events
      (r.1, Call.fetch cursor :: r.2.map Call.dispatch)

/-- One iteration of the `while True` body of `start_listening`.
With empty base filters the iteration only rebuilds the filters (a
rebuild exception escapes: the rebuild sits outside the `try`).  With
a falsy `last_event_id` the cursor is re-resolved first (also outside
the `try`: a resolution exception escapes).  Then the guarded
fetch/process region runs. -/
def loopStep (cfg : Config) (env : Env) (s : LoopState) :
    StepOutcome × List Call :=
  if s.baseFilters.isEmpty then
    match env.sgProjects with
    | Except.error _ => (StepOutcome.crashed, [Call.buildFilters])
    | Except.ok ps =>
      (StepOutcome.continued
        ⟨build_shotgrid_filters cfg ps, s.lastEventId⟩,
       [Call.buildFilters])
  else if truthyId s.lastEventId then
    let r := pollOnce cfg env s.lastEventId
    (StepOutcome.continued ⟨s.baseFilters, r.1⟩, r.2)
  else
    match env.resolve with
    | none => (StepOutcome.crashed, [Call.resolveCursor])
    | some rid =>
      let r := pollOnce cfg env (some rid)
      (StepOutcome.continued ⟨s.baseFilters, r.1⟩,
       Call.resolveCursor :: r.2)

/-- The fetched records of a batch that are not falsy (the `if not
event: continue` guard). -/
def fetchedEvents (evs : List (Option SGEvent)) : List SGEvent :=
  evs.filterMap (fun x => x)

/-! Concrete fixtures used by counterexamples and witnesses. -/

/-- A configuration with two tracked custom-attribute values and the
supported event types derived for the `Shot` entity. -/
def cfgEx : Config :=
  { customAttribValues := ["status_list", "tags"],
    supportedEventTypes := ["Shotgun_Shot_New", "Shotgun_Shot_Change"] }

/-- A concrete timestamp. -/
def dtEx : DateTime := { iso := "2024-01-01T00:00:00" }

/-- A relevant custom-attribute-change event with id 42, caused by a
human user. -/
def ev42 : SGEvent :=
  { id := some 42,
    event_type := "Shotgun_Shot_Change",
    attribute_name := "sg_status_list",
    sudo_actual_user_type := none,
    user := some { name := some (some "Alice") },
    created_at := DTVal.dt dtEx,
    meta_entity_type := none,
    entity_name := some "shot010",
    entity_id := some 7,
    project_name := some "Proj",
    project_id := some 1 }

/-- The same change with id 43, but caused by this integration's own
API user (sudo actual user of type `ApiUser`). -/
def ev43 : SGEvent :=
  { ev42 with id := some 43, sudo_actual_user_type := some "ApiUser" }

/-- An event matching neither classification branch: its type does not
end in `_Change` and is not among the supported event types. -/
def evIrr : SGEvent := { ev42 with
  id := some 50,
  event_type := "Shotgun_Note_New",
  attribute_name := "subject" }

/-- A relevant entity event with id 100, used for the dispatch /
recovery round trip. -/
def ev100 : SGEvent :=
  { ev42 with id := some 100, event_type := "Shotgun_Shot_New" }

/-- An event whose payload carries no `user` key at all. -/
def evNoUser : SGEvent := { ev42 with user := none }

/-- Auxiliary: appending the literal `"Undefined"` to the literal
`" by "`. -/
theorem by_undefined_append :
    (" by " : String) ++ "Undefined" = " by Undefined" := rfl

/-- A dispatch function that always succeeds and returns the payload
id, as the default `send_shotgrid_event_to_ayon` does. -/
def okDispatch : SGEvent → Except Unit Int :=
  fun e => Except.ok (e.id.getD 0)

/-- A dispatch function that always raises. -/
def failDispatch : SGEvent → Except Unit Int :=
  fun _ => Except.error ()

/-- A benign environment: project query and fetch succeed with empty
results, resolution yields id 1. -/
def envEx : Env :=
  { sgProjects := Except.ok [],
    resolve := some 1,
    fetch := Except.ok [],
    dispatchFn := okDispatch }

/-! Claim theorems. -/

/-- C1: the cursor recovery round trip fails on the code.  Dispatching
source event 100 into an empty sink history stores a record under topic
`"shotgrid.event"`, but `_get_last_event_processed` queries topic
`"shotgrid.leech"`: it finds no record of that topic, so instead of
returning 100 without consulting the source system it falls back to the
source `find_one` query (returning that query's id, here 7, or failing
when the source yields nothing). -/
theorem C1_dispatch_not_recovered :
    (send_shotgrid_event_to_ayon [] ev100 =
      some ([{ topic := "shotgrid.event", hash := 100 }],
        { ev100 with created_at := DTVal.str dtEx.isoformat }, 100)) ∧
    get_events [{ topic := "shotgrid.event", hash := 100 }]
      "shotgrid.leech" = [] ∧
    get_last_event_processed
      [{ topic := "shotgrid.event", hash := 100 }] (some 7) = some 7 ∧
    get_last_event_processed
      [{ topic := "shotgrid.event", hash := 100 }] none = none := by
  refine ⟨rfl, rfl, rfl, rfl⟩

/-- C8 counterexample: an event without a user reference does not yield
the plain description — the `"Undefined"` default of the name lookup is
truthy, so the description becomes `"Leeched <event_type> by
Undefined"`. -/
theorem C8_description_counterexample :
    event_description evNoUser =
      "Leeched Shotgun_Shot_Change by Undefined" ∧
    event_description evNoUser ≠ "Leeched Shotgun_Shot_Change" := by
  constructor
  · rfl
  · decide

/-- C8 amended: the description is `"Leeched <event_type> by <name>"`
whenever the retrieved user name is truthy — in particular the name
defaults to `"Undefined"` when the user reference (or its name key) is
absent — and the plain `"Leeched <event_type>"` form occurs exactly
when the stored user name is present but falsy (`None` or the empty
string). -/
theorem C8_description_amended (p : SGEvent) :
    (p.user = none →
      event_description p =
        "Leeched " ++ p.event_type ++ " by Undefined") ∧
    (truthyStr (get_user_name p) = true →
      event_description p =
        "Leeched " ++ p.event_type ++ " by " ++
          (get_user_name p).getD "") ∧
    (event_description p = "Leeched " ++ p.event_type ↔
      truthyStr (get_user_name p) = false) := by
  refine ⟨?_, ?_, ?_⟩
  · intro hu
    simp only [event_description, get_user_name, hu, truthyStr,
      Option.getD_some, bne_iff_ne, ne_eq]
    rw [if_pos (by decide), String.append_assoc, by_undefined_append]
  · intro ht
    simp only [event_description]
    rw [if_pos ht]
  · constructor
    · intro heq
      by_contra hne
      rw [Bool.not_eq_false] at hne
      simp only [event_description] at heq
      rw [if_pos hne] at heq
      have hlen := congrArg String.length heq
      rw [String.length_append, String.length_append,
        String.length_append] at hlen
      have h4 : (" by " : String).length = 4 := rfl
      rw [h4] at hlen
      omega
    · intro hf
      simp only [event_description]
      rw [if_neg ?_]
      rw [hf]
      exact Bool.false_ne_true

/-- C8 witness: the amended theorem evaluated on the concrete event
without a user reference. -/
theorem C8_description_amended_witness :
    event_description evNoUser =
      "Leeched " ++ "Shotgun_Shot_Change" ++ " by Undefined" :=
  (C8_description_amended evNoUser).1 rfl

/-- C9: `_get_last_event_processed` is partial — when the sink history
holds no record of topic `"shotgrid.leech"` and the source `find_one`
yields nothing, the call fails (subscripting `None`); and whenever it
does return an id, at least one of the two queries produced a
record. -/
theorem C9_resolver_requires_record (history : List SinkRecord)
    (src : Option Int) :
    (get_events history "shotgrid.leech" = [] → src = none →
      get_last_event_processed history src = none) ∧
    ((get_last_event_processed history src).isSome = true →
      get_events history "shotgrid.leech" ≠ [] ∨ src.isSome = true) := by
  constructor
  · intro hempty hsrc
    simp [get_last_event_processed, hempty, hsrc, truthyId]
  · intro hsome
    rw [get_last_event_processed] at hsome
    by_cases ht : truthyId (get_events history "shotgrid.leech").getLast?
    · left
      rw [if_pos ht] at hsome
      intro hempty
      rw [hempty] at ht
      simp [truthyId] at ht
    · right
      rw [if_neg ht] at hsome
      exact hsome

/-- C9 witness: the failure case evaluated at the empty history and an
empty source query. -/
theorem C9_resolver_requires_record_witness :
    get_last_event_processed [] none = none :=
  (C9_resolver_requires_record [] none).1 rfl rfl

/-- C10: `send_shotgrid_event_to_ayon` replaces the payload's
`created_at` by its ISO-format string and leaves every other field of
the payload unchanged; the payload carried by the dispatch is exactly
that mutated record. -/
theorem C10_payload_frame (hist : List SinkRecord) (p : SGEvent)
    (d : DateTime) (h : p.created_at = DTVal.dt d) :
    normalize_created_at p =
      some { p with created_at := DTVal.str d.isoformat } ∧
    ∀ r, send_shotgrid_event_to_ayon hist p = some r →
      r.2.1 = { p with created_at := DTVal.str d.isoformat } := by
  have hn : normalize_created_at p =
      some { p with created_at := DTVal.str d.isoformat } := by
    rw [normalize_created_at, h]
  refine ⟨hn, ?_⟩
  intro r hr
  rw [send_shotgrid_event_to_ayon, hn] at hr
  rcases hi : p.id with _ | i
  · simp [hi] at hr
  · simp [hi] at hr
    rw [← hr]

/-- C10 witness: the frame property evaluated on the concrete event
with id 42. -/
theorem C10_payload_frame_witness :
    normalize_created_at ev42 =
      some { ev42 with created_at := DTVal.str dtEx.isoformat } :=
  (C10_payload_frame [] ev42 dtEx rfl).1

/-- Auxiliary: the events the loop body passes to dispatch form a
subsequence (order-preserving sublist) of the non-falsy fetched
records, for every entering cursor. -/
theorem processEvents_sublist (cfg : Config)
    (d : SGEvent → Except Unit Int) (c : Option Int)
    (evs : List (Option SGEvent)) :
    List.Sublist (processEvents cfg d c evs).2 (fetchedEvents evs) := by
  induction evs generalizing c with
  | nil => simp [processEvents, fetchedEvents]
  | cons hd rest ih =>
    cases hd with
    | none =>
      simp only [processEvents, fetchedEvents, List.filterMap_cons]
      exact ih c
    | some e =>
      simp only [processEvents, fetchedEvents, List.filterMap_cons]
      by_cases ht : truthyId (classifyCursor cfg c e) = true
      · rw [if_pos ht]
        cases hde : d e with
        | error u =>
          exact List.Sublist.cons₂ e (List.nil_sublist _)
        | ok r =>
          exact List.Sublist.cons₂ e (ih (some r))
      · rw [if_neg ht]
        exact List.Sublist.cons e (ih _)

/-- Auxiliary: the guarded fetch/process region always records the
event-log query it issues, with the cursor as its id threshold. -/
theorem fetch_mem_pollOnce (cfg : Config) (env : Env)
    (cursor : Option Int) :
    Call.fetch cursor ∈ (pollOnce cfg env cursor).2 := by
  rw [pollOnce]
  cases hfe : env.fetch with
  | error u => simp
  | ok evs =>
    by_cases h : evs.isEmpty <;> simp [h]

/-- C4: for every fetched batch, the sequence of events passed to
dispatch is a subsequence of the batch's non-falsy records, their ids
are a subsequence of the fetched ids, and when the fetched ids are
non-decreasing so are the dispatched ids. -/
theorem C4_dispatch_order (cfg : Config) (d : SGEvent → Except Unit Int)
    (c : Option Int) (evs : List (Option SGEvent))
    (hsorted : List.Pairwise (fun a b => optLe a b = true)
      ((fetchedEvents evs).map SGEvent.id)) :
    List.Sublist (processEvents cfg d c evs).2 (fetchedEvents evs) ∧
    List.Sublist ((processEvents cfg d c evs).2.map SGEvent.id)
      ((fetchedEvents evs).map SGEvent.id) ∧
    List.Pairwise (fun a b => optLe a b = true)
      ((processEvents cfg d c evs).2.map SGEvent.id) := by
  have hsub := processEvents_sublist cfg d c evs
  have hmap := hsub.map SGEvent.id
  exact ⟨hsub, hmap, hsorted.sublist hmap⟩

/-- C4 witness: the ordering property evaluated on a concrete sorted
batch containing a falsy record, a self-caused event and an irrelevant
event. -/
theorem C4_dispatch_order_witness :
    List.Sublist (processEvents cfgEx okDispatch (some 1)
        [some ev42, none, some ev43, some ev100]).2
      (fetchedEvents [some ev42, none, some ev43, some ev100]) ∧
    List.Sublist ((processEvents cfgEx okDispatch (some 1)
        [some ev42, none, some ev43, some ev100]).2.map SGEvent.id)
      ((fetchedEvents
        [some ev42, none, some ev43, some ev100]).map SGEvent.id) ∧
    List.Pairwise (fun a b => optLe a b = true)
      ((processEvents cfgEx okDispatch (some 1)
        [some ev42, none, some ev43, some ev100]).2.map SGEvent.id) :=
  C4_dispatch_order cfgEx okDispatch (some 1)
    [some ev42, none, some ev43, some ev100] (by decide)

/-- C3 counterexample: an event classified irrelevant is nonetheless
passed to dispatch when the loop-carried cursor is truthy — the
dispatch gate only tests the cursor value, which an irrelevant event
leaves untouched. -/
theorem C3_irrelevant_dispatched :
    classify cfgEx evIrr = Classification.irrelevant ∧
    (processEvents cfgEx okDispatch (some 5) [some evIrr]).2 =
      [evIrr] := by
  exact ⟨by decide, by decide⟩

/-- C3 amended: an irrelevant event leaves the classification cursor
unchanged, and it is skipped without dispatch precisely when the
carried cursor is falsy; with a truthy carried cursor the irrelevant
event is passed to dispatch. -/
theorem C3_irrelevant_amended (cfg : Config)
    (d : SGEvent → Except Unit Int) (c : Option Int) (e : SGEvent)
    (rest : List (Option SGEvent))
    (h : classify cfg e = Classification.irrelevant) :
    classifyCursor cfg c e = c ∧
    (truthyId c = false →
      processEvents cfg d c (some e :: rest) =
        processEvents cfg d c rest) ∧
    (truthyId c = true →
      ∃ tl, (processEvents cfg d c (some e :: rest)).2 = e :: tl) := by
  have hc : classifyCursor cfg c e = c := by
    rw [classifyCursor, h]
  refine ⟨hc, ?_, ?_⟩
  · intro hf
    simp only [processEvents, hc, hf, Bool.false_eq_true, if_false]
  · intro ht
    simp only [processEvents, hc, ht, if_true]
    cases hde : d e with
    | error u => exact ⟨[], by simp [hde]⟩
    | ok r =>
      exact ⟨(processEvents cfg d (some r) rest).2, by simp [hde]⟩

/-- C3 witness: the amended theorem evaluated at the concrete
irrelevant event and a truthy cursor. -/
theorem C3_irrelevant_amended_witness :
    ∃ tl, (processEvents cfgEx okDispatch (some 5) [some evIrr]).2 =
      evIrr :: tl :=
  (C3_irrelevant_amended cfgEx okDispatch (some 5) evIrr []
    (by decide)).2.2 (by decide)

/-- C5: a relevant event caused by a sudo actual user of type
`ApiUser` is classified self-caused: it is not dispatched, the cursor
is cleared to `None` instead of taking that event's id, and a cleared
cursor makes the next iteration re-derive the cursor through
`_get_last_event_processed`. -/
theorem C5_selfcaused (cfg : Config) (d : SGEvent → Except Unit Int)
    (c : Option Int) (e : SGEvent) (rest : List (Option SGEvent))
    (hrel : isCustomAttribChange cfg e = true ∨
      isSupportedEntityEvent cfg e = true)
    (hapi : is_api_user_event e = true) :
    classify cfg e = Classification.selfCaused ∧
    processEvents cfg d c (some e :: rest) =
      processEvents cfg d none rest ∧
    ∀ (env : Env) (fs : List SGFilter), fs ≠ [] →
      Call.resolveCursor ∈ (loopStep cfg env ⟨fs, none⟩).2 := by
  have hcls : classify cfg e = Classification.selfCaused := by
    rw [classify]
    rcases hrel with h1 | h1
    · rw [if_pos h1, if_pos hapi]
    · by_cases h2 : isCustomAttribChange cfg e = true
      · rw [if_pos h2, if_pos hapi]
      · rw [if_neg h2, if_pos h1, if_pos hapi]
  have hcur : classifyCursor cfg c e = none := by
    rw [classifyCursor, hcls]
  refine ⟨hcls, ?_, ?_⟩
  · simp only [processEvents, hcur, truthyId, Bool.false_eq_true,
      if_false]
  · intro env fs hfs
    have hne : fs.isEmpty = false := by
      cases fs with
      | nil => exact absurd rfl hfs
      | cons a l => rfl
    rw [loopStep]
    simp only [hne, Bool.false_eq_true, if_false, truthyId]
    cases env.resolve with
    | none => simp
    | some rid => simp

/-- C5 witness: the self-caused behavior evaluated at the concrete
API-user event with id 43. -/
theorem C5_selfcaused_witness :
    classify cfgEx ev43 = Classification.selfCaused :=
  (C5_selfcaused cfgEx okDispatch (some 5) ev43 []
    (Or.inl (by decide)) (by decide)).1

/-- C6 counterexample: when dispatch raises on event 42 the cursor does
not retain its pre-dispatch value 5 — classification already advanced
it to 42 before the dispatch call, so the failed event's id becomes the
cursor. -/
theorem C6_failed_dispatch_advances_cursor :
    processEvents cfgEx failDispatch (some 5) [some ev42] =
      (some 42, [ev42]) ∧
    (some 42 : Option Int) ≠ some 5 := by
  exact ⟨by decide, by decide⟩

/-- C6 amended: when dispatch raises on an accepted event with id `i`,
the iteration ends with the cursor at `i` (assigned during
classification, before the dispatch attempt) and the rest of the batch
abandoned; the next iteration's event-log query then uses the threshold
`id > i`, so the failed event is not re-fetched. -/
theorem C6_failed_dispatch_amended (cfg : Config)
    (d : SGEvent → Except Unit Int) (c : Option Int) (e : SGEvent)
    (rest : List (Option SGEvent)) (i : Int)
    (hcls : classify cfg e = Classification.accept (some i))
    (hi : i ≠ 0)
    (hfail : d e = Except.error ()) :
    processEvents cfg d c (some e :: rest) = (some i, [e]) ∧
    ∀ (env : Env) (fs : List SGFilter), fs ≠ [] →
      Call.fetch (some i) ∈ (loopStep cfg env ⟨fs, some i⟩).2 := by
  have hcur : classifyCursor cfg c e = some i := by
    rw [classifyCursor, hcls]
  have ht : truthyId (some i) = true := by
    simp [truthyId, hi]
  constructor
  · simp only [processEvents, hcur, ht, if_true, hfail]
  · intro env fs hfs
    have hne : fs.isEmpty = false := by
      cases fs with
      | nil => exact absurd rfl hfs
      | cons a l => rfl
    rw [loopStep]
    simp only [hne, Bool.false_eq_true, if_false, ht, if_true]
    exact fetch_mem_pollOnce cfg env (some i)

/-- C6 witness: the amended behavior evaluated at the concrete event
with id 42 and a failing dispatch. -/
theorem C6_failed_dispatch_amended_witness :
    processEvents cfgEx failDispatch (some 5) [some ev42] =
      (some 42, [ev42]) :=
  (C6_failed_dispatch_amended cfgEx failDispatch (some 5) ev42 [] 42
    (by decide) (by decide) rfl).1

/-- C2 counterexample: an exception raised by the filter rebuild inside
the running loop (the empty-filters branch sits outside the `try`)
escapes the loop body. -/
theorem C2_filter_rebuild_escapes :
    (loopStep cfgEx { envEx with sgProjects := Except.error () }
      ⟨[], some 5⟩).1 = StepOutcome.crashed := by
  decide

/-- C2 amended: an iteration of the loop body lets an exception escape
exactly when the in-loop filter rebuild raises (empty-filters branch)
or the in-loop cursor re-resolution raises (falsy-cursor branch); every
exception inside the guarded region — event fetch, classification,
dispatch — is caught and the loop continues. -/
theorem C2_crash_characterization (cfg : Config) (env : Env)
    (s : LoopState) :
    (loopStep cfg env s).1 = StepOutcome.crashed ↔
      (s.baseFilters = [] ∧ env.sgProjects = Except.error ()) ∨
      (s.baseFilters ≠ [] ∧ truthyId s.lastEventId = false ∧
        env.resolve = none) := by
  rw [loopStep]
  by_cases hb : s.baseFilters.isEmpty = true
  · have hnil : s.baseFilters = [] := List.isEmpty_iff.mp hb
    rw [if_pos hb]
    cases hp : env.sgProjects with
    | error u =>
      simp [hnil, hp]
    | ok ps =>
      simp [hnil, hp]
  · have hnil : s.baseFilters ≠ [] := by
      intro hx
      exact hb (by simp [hx])
    rw [if_neg hb]
    by_cases hcur : truthyId s.lastEventId = true
    · rw [if_pos hcur]
      simp [hnil, hcur]
    · rw [if_neg hcur]
      cases hr : env.resolve with
      | none =>
        have hcf : truthyId s.lastEventId = false := by
          simpa using hcur
        simp [hnil, hcf, hr]
      | some rid =>
        simp [hnil, hcur, hr]

/-- C7: with an empty filter set the iteration issues no event-log
query at all — its only external interaction is the auto-sync project
query of the filter rebuild — the cursor is untouched, and when the
rebuild again finds no auto-sync project the filter set stays empty, so
the branch repeats. -/
theorem C7_empty_filters_no_query (cfg : Config) (env : Env)
    (s : LoopState) (h : s.baseFilters = []) :
    ((loopStep cfg env s).2 = [Call.buildFilters] ∧
      ∀ t, Call.fetch t ∉ (loopStep cfg env s).2) ∧
    build_shotgrid_filters cfg [] = [] ∧
    ∀ ps, env.sgProjects = Except.ok ps →
      loopStep cfg env s =
        (StepOutcome.continued
          ⟨build_shotgrid_filters cfg ps, s.lastEventId⟩,
         [Call.buildFilters]) := by
  have hb : s.baseFilters.isEmpty = true := by simp [h]
  have htrace : (loopStep cfg env s).2 = [Call.buildFilters] := by
    rw [loopStep, if_pos hb]
    cases env.sgProjects with
    | error u => rfl
    | ok ps => rfl
  refine ⟨⟨htrace, ?_⟩, rfl, ?_⟩
  · intro t hmem
    rw [htrace] at hmem
    simp at hmem
  · intro ps hps
    rw [loopStep, if_pos hb, hps]

/-- C7 witness: the empty-filters behavior evaluated at a concrete
state and environment. -/
theorem C7_empty_filters_no_query_witness :
    (loopStep cfgEx envEx ⟨[], some 3⟩).2 = [Call.buildFilters] :=
  (C7_empty_filters_no_query cfgEx envEx ⟨[], some 3⟩ rfl).1.1

end Leecher
